import Mathlib

/-!
Shallow embedding of `src/rootbeer.py`, a cross-platform package installer.

External effects (HTTP requests, the filesystem, child processes, and the
random names the `tempfile` module hands out) are supplied by an oracle
`World`.  Every operation returns a `Res`: an `Except` outcome mirroring the
source's raise sites, the ordered list of observable side effects it
performed, and the next fresh temp-name counter.
-/

set_option autoImplicit false

/-- The left-brace character, by code point. -/
def lbrace : Char := Char.ofNat 123

/-- The right-brace character, by code point. -/
def rbrace : Char := Char.ofNat 125

/-- Python `str.format` on the fragment the recipes use: literal text,
doubled-brace escapes, and simple keyword replacement fields looked up in the
given argument list.  A lone brace, an unterminated field, or a field name
with no matching keyword is a formatting error (`none`), where `str.format`
raises `ValueError`, `IndexError` or `KeyError`.  The `Bool` is the scanner
mode: `false` scans literal text, `true` is inside a replacement field whose
name so far is the accumulator. -/
def pyFmtAux (args : List (String × String)) : Bool → List Char → List Char → Option (List Char)
  | false, _, [] => some []
  | false, _, [c] =>
    if c = lbrace then none
    else if c = rbrace then none
    else some [c]
  | false, acc, c1 :: c2 :: rest =>
    if c1 = lbrace then
      if c2 = lbrace then (pyFmtAux args false acc rest).map (fun s => lbrace :: s)
      else pyFmtAux args true [] (c2 :: rest)
    else if c1 = rbrace then
      if c2 = rbrace then (pyFmtAux args false acc rest).map (fun s => rbrace :: s)
      else none
    else (pyFmtAux args false acc (c2 :: rest)).map (fun s => c1 :: s)
  | true, _, [] => none
  | true, acc, c :: rest =>
    if c = rbrace then
      match args.lookup (String.mk acc) with
      | some v => (pyFmtAux args false [] rest).map (fun s => v.data ++ s)
      | none => none
    else pyFmtAux args true (acc ++ [c]) rest

/-- `script.format(**format_args)`. -/
def pyFormat (s : String) (args : List (String × String)) : Option String :=
  (pyFmtAux args false [] s.data).map String.mk

/-- Index of the last occurrence of `c` (Python `str.rfind`), carrying the
index of the head of the remaining list. -/
def lastIndexOfAux (c : Char) : List Char → Nat → Option Nat
  | [], _ => none
  | x :: rest, i =>
    match lastIndexOfAux c rest (i + 1) with
    | some j => some j
    | none => if x = c then some i else none

/-- Index of the last occurrence of `c` in `cs`, if any. -/
def lastIndexOf (cs : List Char) (c : Char) : Option Nat :=
  lastIndexOfAux c cs 0

/-- `os.path.splitext` under POSIX rules: split off the extension at the last
dot of the last path component, unless every character of the component
before that dot is itself a dot. -/
def splitext (p : String) : String × String :=
  let cs := p.data
  let filenameIndex :=
    match lastIndexOf cs '/' with
    | some i => i + 1
    | none => 0
  match lastIndexOf cs '.' with
  | none => (p, "")
  | some sepIndex =>
    if filenameIndex < sepIndex then
      if ((cs.drop filenameIndex).take (sepIndex - filenameIndex)).any (fun c => c != '.') then
        (String.mk (cs.take sepIndex), String.mk (cs.drop sepIndex))
      else (p, "")
    else (p, "")

/-- Python `str.lower` on the ASCII strings it is applied to here
(hex checksums and file extensions). -/
def strToLower (s : String) : String :=
  String.mk (s.data.map Char.toLower)

/-- Python `str.endswith`. -/
def strEndsWith (s suffix : String) : Bool :=
  List.isSuffixOf suffix.data s.data

/-- `os.path.join` for a relative second component (POSIX separator). -/
def pathJoin (a b : String) : String := a ++ "/" ++ b

/-- The installer extensions recognised by `find_binary_file`. -/
def extensions : List String := [".exe", ".msi", ".dmg", ".pkg"]

/-- The loop-body test of `find_binary_file`:
`os.path.splitext(file)[-1].lower() in extensions`. -/
def isInstallerFile (file : String) : Bool :=
  extensions.contains (strToLower (splitext file).2)

/-- `find_binary_file`, with the output of `os.walk(root_dir)` supplied as
data: the ordered list of `(dirpath, dirnames, filenames)` triples the walk
yields.  The source's nested loops with early return scan each triple's
files in order and return the joined path of the first match, or `None`. -/
def find_binary_file : List (String × List String × List String) → Option String
  | [] => none
  | t :: rest =>
    match t.2.2.find? isInstallerFile with
    | some f => some (pathJoin t.1 f)
    | none => find_binary_file rest

/-- The `Package` dataclass of the source, field for field (`install` and
`uninstall` are `str = None` in the source, hence optional here too). -/
structure Package where
  name : String
  version : String
  strategy : String
  location : String
  checksum : Option String
  installer_type : String
  install_dependencies : List String
  uninstall_dependencies : List String
  pre_install : Option String
  install : Option String
  post_install : Option String
  pre_uninstall : Option String
  uninstall : Option String
  post_uninstall : Option String
  deriving DecidableEq

/-- The module-level platform globals: `user_path`, `system_path`,
`system_path_x86` (absent on non-Windows), and the platform test that picks
the script interpreter. -/
structure Platform where
  user_path : String
  system_path : String
  system_path_x86 : Option String
  is_windows : Bool

/-- Observable side effects, in the order they happen. -/
inductive Event where
  | netGet (url : String)
  | tempFileCreate (name : String)
  | tempFileDelete (name : String)
  | tempDirCreate (name : String)
  | tempDirDelete (name : String)
  | fileExtract (src : String) (dest : String)
  | scriptExec (text : String)
  | artifactRemove (path : String)
  | logFileCreate (name : String)
  | installed (name : String)
  deriving DecidableEq

/-- The raise sites of the source, one constructor per distinct failure. -/
inductive RErr where
  | recipeNotFound (packageName : String)
  | downloadFailed (location : String)
  | checksumMismatch (packageName : String)
  | extractionFailed (location : String)
  | installerNotFound (location : String)
  | unsupportedStrategy (strategy : String)
  | templateError
  | scriptExecutionFailed (exitCode : Nat)
  | unsupportedAction (action : String)
  | stackOverflow
  deriving DecidableEq

/-- Outcome of an operation: result or error, the events it emitted, and the
next fresh temp-name counter. -/
structure Res (α : Type) where
  out : Except RErr α
  trace : List Event
  ctr : Nat

/-- Oracle for everything outside the program: recipe responses, downloaded
bytes, the hex SHA-256 digest of bytes, the `os.walk` listing of a directory
after unpacking an archive into it, child-process exit codes, the fresh
names `tempfile` hands out (indexed by a creation counter), and the log
timestamp. -/
structure World where
  recipes : String → Option Package
  download : String → Option (List Nat)
  hashHex : List Nat → String
  archiveWalk : String → String → Option (List (String × List String × List String))
  exitCode : String → Nat
  tempName : Nat → String
  tempDirName : Nat → String
  scriptTempName : Nat → String
  timestamp : String

/-- The URL `fetch_and_parse_recipe` builds for a package name. -/
def recipeUrl (package_name : String) : String :=
  "https://raw.githubusercontent.com/MuhammadButt1995/recipes/master/" ++ package_name ++ ".json"

/-- `fetch_and_parse_recipe`: one HTTP GET; `none` from the oracle is a
non-200 status or an unparsable body (the `ValueError` raise site). -/
def fetch_and_parse_recipe (w : World) (package_name : String) :
    Except RErr Package × List Event :=
  match w.recipes package_name with
  | none => (.error (.recipeNotFound package_name), [.netGet (recipeUrl package_name)])
  | some p => (.ok p, [.netGet (recipeUrl package_name)])

/-- The per-invocation log file `configure_logger` creates. -/
def logFileName (w : World) (package_name : String) : String :=
  package_name ++ "_" ++ w.timestamp ++ ".log"

/-- The conditional extraction at the end of `download_and_verify_package`.
The archive test is on the TEMPORARY file's own name (`temp_file.name`),
exactly as in the source, and the target directory is `splitext` of that
name.  Returns the surviving path and the events of this step. -/
def extractStep (tmp : String) : String × List Event :=
  if strEndsWith tmp ".zip" then
    let d := (splitext tmp).1
    (d, [.fileExtract tmp d, .tempFileDelete tmp])
  else if strEndsWith tmp ".tar.gz" then
    let d := (splitext (splitext tmp).1).1
    (d, [.fileExtract tmp d, .tempFileDelete tmp])
  else (tmp, [])

/-- `download_and_verify_package`: stream the location into a fresh
`NamedTemporaryFile(delete=False)`, verify the SHA-256 digest against
`checksum.lower()` when a checksum is declared (removing the temp file
before raising on mismatch), then run the conditional extraction. -/
def download_and_verify_package (w : World) (ctr : Nat) (package : Package) : Res String :=
  let tmp := w.tempName ctr
  match w.download package.location with
  | none =>
    ⟨.error (.downloadFailed package.location),
      [.tempFileCreate tmp, .netGet package.location], ctr + 1⟩
  | some bytes =>
    let pre : List Event := [.tempFileCreate tmp, .netGet package.location]
    match package.checksum with
    | some c =>
      if w.hashHex bytes ≠ strToLower c then
        ⟨.error (.checksumMismatch package.name), pre ++ [.tempFileDelete tmp], ctr + 1⟩
      else
        let e := extractStep tmp
        ⟨.ok e.1, pre ++ e.2, ctr + 1⟩
    | none =>
      let e := extractStep tmp
      ⟨.ok e.1, pre ++ e.2, ctr + 1⟩

/-- `run_script`: create the temp script file, interpolate the body a second
time (`script.format(**format_args)` inside the `with` block), run it under
the platform interpreter, and `os.remove` the file.  The removal sits AFTER
the try/except whose handler re-raises, so a non-zero exit (or a formatting
error) leaves the file behind. -/
def run_script (w : World) (pl : Platform) (ctr : Nat) (script : String)
    (format_args : List (String × String)) : Res Unit :=
  let script_name := if pl.is_windows then "script.ps1" else "script.sh"
  let fname := w.scriptTempName ctr ++ script_name
  match pyFormat script format_args with
  | none => ⟨.error .templateError, [.tempFileCreate fname], ctr + 1⟩
  | some text =>
    if w.exitCode text ≠ 0 then
      ⟨.error (.scriptExecutionFailed (w.exitCode text)),
        [.tempFileCreate fname, .scriptExec text], ctr + 1⟩
    else
      ⟨.ok (), [.tempFileCreate fname, .scriptExec text, .tempFileDelete fname], ctr + 1⟩

/-- One `if package.X: run_script(package.X.format(**format_args), ...)`
guard from the strategies: the FIRST interpolation pass happens here at the
call site, before `run_script` formats the text again with the same
arguments. -/
def runPhase (w : World) (pl : Platform) (ctr : Nat) (body : Option String)
    (format_args : List (String × String)) : Res Unit :=
  match body with
  | none => ⟨.ok (), [], ctr⟩
  | some s =>
    match pyFormat s format_args with
    | none => ⟨.error .templateError, [], ctr⟩
    | some s1 => run_script w pl ctr s1 format_args

/-- The `format_args` dict both strategies build; a `None` value renders as
the string "None" under `str.format`. -/
def formatArgsFor (pl : Platform) (package_file : String) : List (String × String) :=
  [("package_file", package_file), ("user_path", pl.user_path),
   ("system_path", pl.system_path),
   ("system_path_x86", match pl.system_path_x86 with | some s => s | none => "None")]

/-- The pre-install / install / post-install sequence that appears verbatim
in both strategies; a failing phase aborts the rest. -/
def scriptPhases (w : World) (pl : Platform) (ctr : Nat) (package : Package)
    (format_args : List (String × String)) : Res Unit :=
  let p1 := runPhase w pl ctr package.pre_install format_args
  match p1.out with
  | .error e => ⟨.error e, p1.trace, p1.ctr⟩
  | .ok _ =>
    let p2 := runPhase w pl p1.ctr package.install format_args
    match p2.out with
    | .error e => ⟨.error e, p1.trace ++ p2.trace, p2.ctr⟩
    | .ok _ =>
      let p3 := runPhase w pl p2.ctr package.post_install format_args
      ⟨p3.out, p1.trace ++ p2.trace ++ p3.trace, p3.ctr⟩

/-- `vendor_install`: download/verify, run the phases, then remove the
artifact.  The removal is straight-line code after the three phases, NOT a
finally block, so a phase failure skips it. -/
def vendor_install (w : World) (pl : Platform) (ctr : Nat) (package : Package) : Res Unit :=
  let d := download_and_verify_package w ctr package
  match d.out with
  | .error e => ⟨.error e, d.trace, d.ctr⟩
  | .ok package_file =>
    let ph := scriptPhases w pl d.ctr package (formatArgsFor pl package_file)
    match ph.out with
    | .error e => ⟨.error e, d.trace ++ ph.trace, ph.ctr⟩
    | .ok _ => ⟨.ok (), d.trace ++ ph.trace ++ [.artifactRemove package_file], ph.ctr⟩

/-- `zip_install`: unpack `package.location` (no download, no checksum) into
a fresh `TemporaryDirectory`, locate a binary installer in it, run the
phases; the `with` block removes the directory on EVERY path out. -/
def zip_install (w : World) (pl : Platform) (ctr : Nat) (package : Package) : Res Unit :=
  let temp_dir := w.tempDirName ctr
  match w.archiveWalk package.location temp_dir with
  | none =>
    ⟨.error (.extractionFailed package.location),
      [.tempDirCreate temp_dir, .tempDirDelete temp_dir], ctr + 1⟩
  | some walk =>
    let pre : List Event := [.tempDirCreate temp_dir, .fileExtract package.location temp_dir]
    match find_binary_file walk with
    | none =>
      ⟨.error (.installerNotFound package.location),
        pre ++ [.tempDirDelete temp_dir], ctr + 1⟩
    | some package_file =>
      let ph := scriptPhases w pl (ctr + 1) package (formatArgsFor pl package_file)
      ⟨ph.out, pre ++ ph.trace ++ [.tempDirDelete temp_dir], ph.ctr⟩

/-- The if/elif/else strategy dispatch of `install_package`. -/
def dispatch_strategy (w : World) (pl : Platform) (ctr : Nat) (package : Package) : Res Unit :=
  if package.strategy = "vendor_install" then vendor_install w pl ctr package
  else if package.strategy = "zip_install" then zip_install w pl ctr package
  else ⟨.error (.unsupportedStrategy package.strategy), [], ctr⟩

/-- `install_package` and its dependency loop as one fuel-indexed function:
`.inl` installs one package (dependencies first, then strategy dispatch),
`.inr` runs the `for dependency_name in package.install_dependencies` loop,
fetching and recursively installing each name in order.  The fuel models
Python's bounded call stack; `stackOverflow` is its `RecursionError` on a
dependency cycle. -/
def install_go (w : World) (pl : Platform) : Nat → Nat → Package ⊕ List String → Res Unit
  | 0, ctr, _ => ⟨.error .stackOverflow, [], ctr⟩
  | fuel + 1, ctr, .inl package =>
    let d := install_go w pl fuel ctr (.inr package.install_dependencies)
    match d.out with
    | .error e => ⟨.error e, d.trace, d.ctr⟩
    | .ok _ =>
      let s := dispatch_strategy w pl d.ctr package
      match s.out with
      | .error e => ⟨.error e, d.trace ++ s.trace, s.ctr⟩
      | .ok _ => ⟨.ok (), d.trace ++ s.trace ++ [.installed package.name], s.ctr⟩
  | _ + 1, ctr, .inr [] => ⟨.ok (), [], ctr⟩
  | fuel + 1, ctr, .inr (dep :: rest) =>
    let f := fetch_and_parse_recipe w dep
    match f.1 with
    | .error e => ⟨.error e, f.2, ctr⟩
    | .ok dp =>
      let r := install_go w pl fuel ctr (.inl dp)
      match r.out with
      | .error e => ⟨.error e, f.2 ++ r.trace, r.ctr⟩
      | .ok _ =>
        let rr := install_go w pl fuel r.ctr (.inr rest)
        ⟨rr.out, f.2 ++ r.trace ++ rr.trace, rr.ctr⟩

/-- `install_package` on one package. -/
def install_package (w : World) (pl : Platform) (fuel ctr : Nat) (package : Package) : Res Unit :=
  install_go w pl fuel ctr (.inl package)

/-- The dependency loop of `install_package`. -/
def install_deps (w : World) (pl : Platform) (fuel ctr : Nat) (deps : List String) : Res Unit :=
  install_go w pl fuel ctr (.inr deps)

/-- The source's `main` (renamed: Lean reserves `main` for executables):
parse the arguments (given here), fetch the recipe, configure
the logger (which creates the log file), then dispatch on the action; the
uninstall branch is `pass`. -/
def main_entry (w : World) (pl : Platform) (fuel ctr : Nat) (package_name action : String) : Res Unit :=
  let f := fetch_and_parse_recipe w package_name
  match f.1 with
  | .error e => ⟨.error e, f.2, ctr⟩
  | .ok package =>
    let logEv : List Event := [.logFileCreate (logFileName w package_name)]
    if action = "install" then
      let r := install_package w pl fuel ctr package
      ⟨r.out, f.2 ++ logEv ++ r.trace, r.ctr⟩
    else if action = "uninstall" then ⟨.ok (), f.2 ++ logEv, ctr⟩
    else ⟨.error (.unsupportedAction action), f.2 ++ logEv, ctr⟩

/-- The package names of the `installed` events of a trace, in order. -/
def installedNames (tr : List Event) : List String :=
  tr.filterMap (fun e => match e with | .installed n => some n | _ => none)

/-- All `(dirpath, filename)` pairs of a walk listing, in traversal order. -/
def walkPairs (walk : List (String × List String × List String)) : List (String × String) :=
  walk.flatMap (fun t => t.2.2.map (fun f => (t.1, f)))

/-! ### Concrete fixtures used to instantiate the theorems -/

/-- A descriptor with the given name, strategy, location, checksum,
dependency list and script phases; the remaining fields are fixed. -/
def mkPkg (name strategy location : String) (checksum : Option String) (deps : List String)
    (pre ins post : Option String) : Package :=
  ⟨name, "1.0", strategy, location, checksum, "exe", deps, [], pre, ins, post, none, none, none⟩

/-- A world with the given oracles and a standard temp-name supply. -/
def mkWorld (recipes : String → Option Package) (download : String → Option (List Nat))
    (hashHex : List Nat → String)
    (archiveWalk : String → String → Option (List (String × List String × List String)))
    (exitCode : String → Nat) : World :=
  ⟨recipes, download, hashHex, archiveWalk, exitCode,
   fun n => "/tmp/tmpf" ++ toString n, fun n => "/tmp/dir" ++ toString n,
   fun n => "/tmp/pkg_manager_" ++ toString n, "TS"⟩

def plPosix : Platform := ⟨"/home/u", "/Applications", none, false⟩

/-- Walk listing of a directory holding one installer. -/
def walkSetup : List (String × List String × List String) := [("/tmp/d", [], ["setup.exe"])]

/-- Walk listing of a directory holding no installer. -/
def walkPlain : List (String × List String × List String) := [("/r", [], ["readme.txt", "a.md"])]

def pkgD : Package := mkPkg "D" "vendor_install" "https://x/D" none [] none none none

def pkgB : Package := mkPkg "B" "vendor_install" "https://x/B" none ["D"] none none none

def pkgC : Package := mkPkg "C" "vendor_install" "https://x/C" none [] none none none

def pkgA : Package := mkPkg "A" "vendor_install" "https://x/A" none ["B", "C"] none none none

/-- World for the dependency-order scenario: A depends on [B, C], B on [D]. -/
def wABCD : World :=
  mkWorld
    (fun n => if n = "B" then some pkgB else if n = "C" then some pkgC
      else if n = "D" then some pkgD else none)
    (fun _ => some [0]) (fun _ => "aa") (fun _ _ => none) (fun _ => 0)

/-- A `zip_install` descriptor declaring a checksum the content does not match. -/
def pkgZbad : Package :=
  mkPkg "zpkg" "zip_install" "https://x/a.zip" (some "00") [] none (some "run installer") none

/-- World where the content at any location hashes to "ff". -/
def wZbad : World :=
  mkWorld (fun _ => none) (fun _ => some [1]) (fun _ => "ff") (fun _ _ => some walkSetup)
    (fun _ => 0)

/-- A `vendor_install` descriptor declaring an uppercase checksum. -/
def pkgVbad : Package :=
  mkPkg "vpkg" "vendor_install" "https://x/v.bin" (some "AB") [] none (some "run") none

/-- A `vendor_install` descriptor whose install script exits non-zero. -/
def pkgVfail : Package :=
  mkPkg "vfail" "vendor_install" "https://x/v.bin" none [] none (some "oops") none

/-- World where only the script text "oops" exits non-zero. -/
def wFail : World :=
  mkWorld (fun _ => none) (fun _ => some [0]) (fun _ => "aa") (fun _ _ => none)
    (fun s => if s = "oops" then 1 else 0)

/-- A descriptor whose location names a zip archive. -/
def pkgFooZip : Package :=
  mkPkg "foo" "vendor_install" "https://example/foo.zip" none [] none none none

/-- World whose `NamedTemporaryFile` is the typical suffixless random name. -/
def w4 : World :=
  ⟨fun _ => none, fun _ => some [0], fun _ => "aa", fun _ _ => none, fun _ => 0,
   fun _ => "/tmp/tmpw8yc2k", fun n => "/tmp/dir" ++ toString n,
   fun n => "/tmp/pkg_manager_" ++ toString n, "TS"⟩

/-- A plain `zip_install` descriptor. -/
def pkgZplain : Package :=
  mkPkg "zp" "zip_install" "https://x/b.zip" none [] none (some "run") none

/-- World whose archives contain no installer file. -/
def wNoInst : World :=
  mkWorld (fun _ => none) (fun _ => none) (fun _ => "aa") (fun _ _ => some walkPlain)
    (fun _ => 0)

/-- World where every download succeeds and every script exits zero. -/
def wOk : World :=
  mkWorld (fun _ => none) (fun _ => some [0]) (fun _ => "aa") (fun _ _ => some walkSetup)
    (fun _ => 0)

def pkgB7 : Package := mkPkg "B" "vendor_install" "https://x/B" none [] none (some "setup") none

/-- An unknown-strategy descriptor with a non-empty dependency list. -/
def pkgU : Package := mkPkg "upkg" "unknown_strategy" "https://x/u" none ["B"] none none none

/-- World resolving the dependency "B" of `pkgU`. -/
def wU : World :=
  mkWorld (fun n => if n = "B" then some pkgB7 else none) (fun _ => some [0]) (fun _ => "aa")
    (fun _ _ => none) (fun _ => 0)

/-- An unknown-strategy descriptor with no dependencies. -/
def pkgU0 : Package := mkPkg "u0" "unknown_strategy" "https://x/u0" none [] none none none

def pkgFoo : Package := mkPkg "foo" "vendor_install" "https://x/foo" none [] none none none

/-- World resolving the recipe "foo". -/
def w8 : World :=
  mkWorld (fun n => if n = "foo" then some pkgFoo else none) (fun _ => some [0]) (fun _ => "aa")
    (fun _ _ => none) (fun _ => 0)

/-- A vendor descriptor whose pre-install script uses escaped braces. -/
def pkgPre : Package :=
  mkPkg "p9" "vendor_install" "https://x/p9" none []
    (some "echo \x7b\x7buser_path\x7d\x7d") none none

/-! ### General lemmas about traces -/

@[simp]
theorem installedNames_nil : installedNames [] = [] := rfl

@[simp]
theorem installedNames_append (a b : List Event) :
    installedNames (a ++ b) = installedNames a ++ installedNames b := by
  simp [installedNames]

@[simp]
theorem installedNames_netGet_cons (u : String) (tr : List Event) :
    installedNames (Event.netGet u :: tr) = installedNames tr := rfl

@[simp]
theorem installedNames_tempFileCreate_cons (n : String) (tr : List Event) :
    installedNames (Event.tempFileCreate n :: tr) = installedNames tr := rfl

@[simp]
theorem installedNames_tempFileDelete_cons (n : String) (tr : List Event) :
    installedNames (Event.tempFileDelete n :: tr) = installedNames tr := rfl

@[simp]
theorem installedNames_tempDirCreate_cons (n : String) (tr : List Event) :
    installedNames (Event.tempDirCreate n :: tr) = installedNames tr := rfl

@[simp]
theorem installedNames_tempDirDelete_cons (n : String) (tr : List Event) :
    installedNames (Event.tempDirDelete n :: tr) = installedNames tr := rfl

@[simp]
theorem installedNames_fileExtract_cons (s d : String) (tr : List Event) :
    installedNames (Event.fileExtract s d :: tr) = installedNames tr := rfl

@[simp]
theorem installedNames_scriptExec_cons (t : String) (tr : List Event) :
    installedNames (Event.scriptExec t :: tr) = installedNames tr := rfl

@[simp]
theorem installedNames_artifactRemove_cons (p : String) (tr : List Event) :
    installedNames (Event.artifactRemove p :: tr) = installedNames tr := rfl

@[simp]
theorem installedNames_logFileCreate_cons (n : String) (tr : List Event) :
    installedNames (Event.logFileCreate n :: tr) = installedNames tr := rfl

@[simp]
theorem installedNames_installed_cons (n : String) (tr : List Event) :
    installedNames (Event.installed n :: tr) = n :: installedNames tr := rfl

@[simp]
theorem installedNames_run_script (w : World) (pl : Platform) (ctr : Nat) (s : String)
    (args : List (String × String)) :
    installedNames (run_script w pl ctr s args).trace = [] := by
  unfold run_script
  rcases h : pyFormat s args with _ | text
  · simp [h]
  · simp only [h]
    by_cases hz : w.exitCode text = 0 <;> simp [hz]

@[simp]
theorem installedNames_runPhase (w : World) (pl : Platform) (ctr : Nat) (body : Option String)
    (args : List (String × String)) :
    installedNames (runPhase w pl ctr body args).trace = [] := by
  unfold runPhase
  rcases body with _ | s
  · rfl
  · rcases h : pyFormat s args with _ | s1
    · simp [h]
    · simp [h]

@[simp]
theorem installedNames_scriptPhases (w : World) (pl : Platform) (ctr : Nat) (package : Package)
    (args : List (String × String)) :
    installedNames (scriptPhases w pl ctr package args).trace = [] := by
  unfold scriptPhases
  rcases h1 : (runPhase w pl ctr package.pre_install args).out with e | u
  · simp [h1]
  · rcases h2 : (runPhase w pl (runPhase w pl ctr package.pre_install args).ctr
        package.install args).out with e | u2
    · simp [h1, h2]
    · simp [h1, h2]

@[simp]
theorem installedNames_download (w : World) (ctr : Nat) (package : Package) :
    installedNames (download_and_verify_package w ctr package).trace = [] := by
  unfold download_and_verify_package extractStep
  rcases w.download package.location with _ | bytes
  · simp
  · rcases package.checksum with _ | c
    · by_cases h1 : strEndsWith (w.tempName ctr) ".zip" <;>
        by_cases h2 : strEndsWith (w.tempName ctr) ".tar.gz" <;>
        simp [h1, h2]
    · by_cases hm : w.hashHex bytes ≠ strToLower c
      · simp [hm]
      · by_cases h1 : strEndsWith (w.tempName ctr) ".zip" <;>
          by_cases h2 : strEndsWith (w.tempName ctr) ".tar.gz" <;>
          simp [hm, h1, h2]

@[simp]
theorem installedNames_vendor (w : World) (pl : Platform) (ctr : Nat) (package : Package) :
    installedNames (vendor_install w pl ctr package).trace = [] := by
  unfold vendor_install
  rcases hd : (download_and_verify_package w ctr package).out with e | pf
  · simp [hd]
  · rcases hp : (scriptPhases w pl (download_and_verify_package w ctr package).ctr package
        (formatArgsFor pl pf)).out with e | u
    · simp [hd, hp]
    · simp [hd, hp]

@[simp]
theorem installedNames_zip (w : World) (pl : Platform) (ctr : Nat) (package : Package) :
    installedNames (zip_install w pl ctr package).trace = [] := by
  unfold zip_install
  rcases hw : w.archiveWalk package.location (w.tempDirName ctr) with _ | walk
  · simp [hw]
  · rcases hf : find_binary_file walk with _ | pf
    · simp [hw, hf]
    · simp [hw, hf]

@[simp]
theorem installedNames_dispatch (w : World) (pl : Platform) (ctr : Nat) (package : Package) :
    installedNames (dispatch_strategy w pl ctr package).trace = [] := by
  unfold dispatch_strategy
  split
  · exact installedNames_vendor w pl ctr package
  · split
    · exact installedNames_zip w pl ctr package
    · rfl

/-! ### Lemmas on script execution and installer search -/

theorem run_script_exec_mem (w : World) (pl : Platform) (ctr : Nat) (s1 : String)
    (args : List (String × String)) (s2 : String) (h2 : pyFormat s1 args = some s2) :
    Event.scriptExec s2 ∈ (run_script w pl ctr s1 args).trace := by
  unfold run_script
  simp only [h2]
  by_cases hz : w.exitCode s2 = 0 <;> simp [hz]

theorem runPhase_exec_mem (w : World) (pl : Platform) (ctr : Nat) (s : String)
    (args : List (String × String)) (s1 s2 : String)
    (h1 : pyFormat s args = some s1) (h2 : pyFormat s1 args = some s2) :
    Event.scriptExec s2 ∈ (runPhase w pl ctr (some s) args).trace := by
  unfold runPhase
  simp only [h1]
  exact run_script_exec_mem w pl ctr s1 args s2 h2

theorem scriptPhases_exec_mem (w : World) (pl : Platform) (ctr : Nat) (package : Package)
    (args : List (String × String)) (s s1 s2 : String)
    (hpre : package.pre_install = some s)
    (h1 : pyFormat s args = some s1) (h2 : pyFormat s1 args = some s2) :
    Event.scriptExec s2 ∈ (scriptPhases w pl ctr package args).trace := by
  unfold scriptPhases
  rw [hpre]
  have hm := runPhase_exec_mem w pl ctr s args s1 s2 h1 h2
  rcases hp1 : (runPhase w pl ctr (some s) args).out with e | u
  · simp only [hp1]
    exact hm
  · rcases hp2 : (runPhase w pl (runPhase w pl ctr (some s) args).ctr
        package.install args).out with e | u2
    · simp only [hp1, hp2]
      exact List.mem_append.mpr (Or.inl hm)
    · simp only [hp1, hp2]
      exact List.mem_append.mpr (Or.inl (List.mem_append.mpr (Or.inl hm)))

theorem find?_pair_map (root : String) (files : List String) :
    (files.map (fun f => (root, f))).find? (fun rf => isInstallerFile rf.2) =
      (files.find? isInstallerFile).map (fun f => (root, f)) := by
  induction files with
  | nil => rfl
  | cons f fs ih =>
    by_cases hf : isInstallerFile f
    · simp [List.find?_cons_of_pos, hf]
    · simp [List.find?_cons_of_neg, hf, ih]

theorem find_binary_file_eq (walk : List (String × List String × List String)) :
    find_binary_file walk =
      ((walkPairs walk).find? (fun rf => isInstallerFile rf.2)).map
        (fun rf => pathJoin rf.1 rf.2) := by
  induction walk with
  | nil => rfl
  | cons t rest ih =>
    simp only [find_binary_file]
    have hwp : walkPairs (t :: rest) = t.2.2.map (fun f => (t.1, f)) ++ walkPairs rest := by
      simp [walkPairs]
    rw [hwp, List.find?_append, find?_pair_map]
    rcases hf : t.2.2.find? isInstallerFile with _ | f
    · exact ih
    · rfl

/-! ### Lemmas on the dependency loop -/

theorem install_package_order (w : World) (pl : Platform) (fuel ctr : Nat) (package : Package)
    (h : (install_package w pl (fuel + 1) ctr package).out = .ok ()) :
    installedNames (install_package w pl (fuel + 1) ctr package).trace =
      installedNames (install_deps w pl fuel ctr package.install_dependencies).trace
        ++ [package.name] := by
  simp only [install_package, install_deps] at h ⊢
  simp only [install_go] at h ⊢
  rcases hd : (install_go w pl fuel ctr (Sum.inr package.install_dependencies)).out with e | u
  · simp [hd] at h
  · rcases hs : (dispatch_strategy w pl
        (install_go w pl fuel ctr (Sum.inr package.install_dependencies)).ctr package).out
      with e | u2
    · simp [hd, hs] at h
    · simp [hd, hs]

theorem install_deps_order (w : World) (pl : Platform) (fuel ctr : Nat) (dep : String)
    (rest : List String) (dp : Package) (hr : w.recipes dep = some dp)
    (hok : (install_package w pl fuel ctr dp).out = .ok ()) :
    installedNames (install_deps w pl (fuel + 1) ctr (dep :: rest)).trace =
      installedNames (install_package w pl fuel ctr dp).trace ++
        installedNames
          (install_deps w pl fuel (install_package w pl fuel ctr dp).ctr rest).trace := by
  simp only [install_package, install_deps] at hok ⊢
  simp only [install_go]
  simp [fetch_and_parse_recipe, hr, hok]

/-! ### Claims -/

/-- C10: `find_binary_file` matches the installer extensions
case-insensitively (INSTALLER.EXE and Setup.Pkg count), returns the first
matching file in `os.walk` traversal order of the tree, and returns `none`
rather than raising whenever the tree holds no file with a recognised
extension. -/
theorem claim_C10 :
    (∀ walk : List (String × List String × List String),
      find_binary_file walk =
        ((walkPairs walk).find? (fun rf => isInstallerFile rf.2)).map
          (fun rf => pathJoin rf.1 rf.2))
    ∧ isInstallerFile "INSTALLER.EXE" = true
    ∧ isInstallerFile "Setup.Pkg" = true
    ∧ (∀ walk : List (String × List String × List String),
        (∀ rf ∈ walkPairs walk, isInstallerFile rf.2 = false) →
        find_binary_file walk = none) := by
  refine ⟨find_binary_file_eq, by decide, by decide, fun walk h => ?_⟩
  rw [find_binary_file_eq, List.find?_eq_none.mpr (fun rf hrf => by simp [h rf hrf])]
  rfl

/-- Witness for C10 at a concrete walk listing with no installer file. -/
theorem claim_C10_witness :
    find_binary_file walkPlain = none ∧ isInstallerFile "INSTALLER.EXE" = true :=
  ⟨claim_C10.2.2.2 walkPlain (by decide), claim_C10.2.1⟩

/-- C5: for every `zip_install` descriptor whose archive walk contains no
file with a recognised installer extension, installation fails with
`InstallerNotFound` and the scoped temporary extraction directory is
removed before the failure surfaces (the trace ends with its deletion). -/
theorem claim_C5 (w : World) (pl : Platform) (ctr : Nat) (package : Package)
    (walk : List (String × List String × List String))
    (hw : w.archiveWalk package.location (w.tempDirName ctr) = some walk)
    (hf : find_binary_file walk = none) :
    zip_install w pl ctr package =
      ⟨.error (.installerNotFound package.location),
       [.tempDirCreate (w.tempDirName ctr), .fileExtract package.location (w.tempDirName ctr),
        .tempDirDelete (w.tempDirName ctr)], ctr + 1⟩
    ∧ extensions = [".exe", ".msi", ".dmg", ".pkg"] := by
  constructor
  · unfold zip_install
    simp [hw, hf]
  · rfl

/-- Witness for C5: a concrete archive containing only non-installer files. -/
theorem claim_C5_witness :
    zip_install wNoInst plPosix 0 pkgZplain =
      ⟨.error (.installerNotFound "https://x/b.zip"),
       [.tempDirCreate "/tmp/dir0", .fileExtract "https://x/b.zip" "/tmp/dir0",
        .tempDirDelete "/tmp/dir0"], 1⟩ :=
  (claim_C5 wNoInst plPosix 0 pkgZplain walkPlain rfl (by decide)).1

/-- C3: dependency installation is strictly depth-first and sequential: on
success the installed order of a package is the installed order of its
dependency loop followed by the package itself, and the loop installs each
resolved dependency completely (its own transitive dependencies included)
before moving to the next name in list order; on the concrete scenario
A → [B, C], B → [D], the order is D, B, C, A. -/
theorem claim_C3 :
    (∀ (w : World) (pl : Platform) (fuel ctr : Nat) (package : Package),
      (install_package w pl (fuel + 1) ctr package).out = .ok () →
      installedNames (install_package w pl (fuel + 1) ctr package).trace =
        installedNames (install_deps w pl fuel ctr package.install_dependencies).trace
          ++ [package.name])
    ∧ (∀ (w : World) (pl : Platform) (fuel ctr : Nat) (dep : String) (rest : List String)
        (dp : Package), w.recipes dep = some dp →
        (install_package w pl fuel ctr dp).out = .ok () →
        installedNames (install_deps w pl (fuel + 1) ctr (dep :: rest)).trace =
          installedNames (install_package w pl fuel ctr dp).trace ++
            installedNames
              (install_deps w pl fuel (install_package w pl fuel ctr dp).ctr rest).trace)
    ∧ installedNames (install_package wABCD plPosix 10 0 pkgA).trace = ["D", "B", "C", "A"] :=
  ⟨install_package_order, install_deps_order, by decide⟩

/-- Witness for C3: the A, B, C, D scenario instantiates the general order
equation. -/
theorem claim_C3_witness :
    (install_package wABCD plPosix 10 0 pkgA).out = .ok () ∧
    installedNames (install_package wABCD plPosix 10 0 pkgA).trace =
      installedNames (install_deps wABCD plPosix 9 0 pkgA.install_dependencies).trace
        ++ ["A"] :=
  ⟨rfl, claim_C3.1 wABCD plPosix 9 0 pkgA rfl⟩

/-- C7 counterexample: an unknown-strategy descriptor with a non-empty
dependency list — its dependency is fetched over the network and its
script runs before the `UnsupportedStrategy` failure, so network and
script activity DO occur during that install. -/
theorem claim_C7_counterexample :
    (install_package wU plPosix 5 0 pkgU).out =
        .error (.unsupportedStrategy "unknown_strategy")
    ∧ Event.netGet (recipeUrl "B") ∈ (install_package wU plPosix 5 0 pkgU).trace
    ∧ Event.scriptExec "setup" ∈ (install_package wU plPosix 5 0 pkgU).trace :=
  ⟨rfl, by decide, by decide⟩

/-- C7 (amended): for every descriptor whose strategy is neither
`vendor_install` nor `zip_install` AND whose dependency list is empty,
installation fails immediately with `UnsupportedStrategy` and performs no
observable effect at all (empty trace: no network, no scripts); when the
dependency list is non-empty the dependencies are resolved and installed
first, as the counterexample shows. -/
theorem claim_C7_amended (w : World) (pl : Platform) (fuel ctr : Nat) (package : Package)
    (hdeps : package.install_dependencies = [])
    (h1 : package.strategy ≠ "vendor_install") (h2 : package.strategy ≠ "zip_install") :
    install_package w pl (fuel + 2) ctr package =
      ⟨.error (.unsupportedStrategy package.strategy), [], ctr⟩ := by
  simp only [install_package]
  simp only [install_go, hdeps]
  simp [dispatch_strategy, h1, h2]

/-- Witness for C7: a concrete unknown-strategy descriptor with no
dependencies. -/
theorem claim_C7_witness :
    pkgU0.install_dependencies = [] ∧
    install_package wOk plPosix 2 0 pkgU0 =
      ⟨.error (.unsupportedStrategy "unknown_strategy"), [], 0⟩ :=
  ⟨rfl, claim_C7_amended wOk plPosix 0 0 pkgU0 rfl (by decide) (by decide)⟩

/-- C8 counterexample: invoking the program with the uninstall action is
not free of side effects — the recipe is fetched over the network and the
log file is created before the action dispatch. -/
theorem claim_C8_counterexample :
    (main_entry w8 plPosix 5 0 "foo" "uninstall").out = .ok ()
    ∧ Event.netGet (recipeUrl "foo") ∈ (main_entry w8 plPosix 5 0 "foo" "uninstall").trace
    ∧ Event.logFileCreate "foo_TS.log" ∈ (main_entry w8 plPosix 5 0 "foo" "uninstall").trace :=
  ⟨rfl, by decide, by decide⟩

/-- C8 (amended): for every package whose recipe resolves, the uninstall
action returns success and runs no script, installs nothing and creates no
temporary file — but `main` still performs the recipe fetch (network
activity) and creates the per-invocation log file before dispatching. -/
theorem claim_C8_amended (w : World) (pl : Platform) (fuel ctr : Nat) (name : String)
    (package : Package) (hr : w.recipes name = some package) :
    main_entry w pl fuel ctr name "uninstall" =
      ⟨.ok (), [.netGet (recipeUrl name), .logFileCreate (logFileName w name)], ctr⟩ := by
  unfold main_entry fetch_and_parse_recipe
  simp [hr]

/-- Witness for C8 at the concrete resolving world. -/
theorem claim_C8_witness :
    main_entry w8 plPosix 3 0 "foo" "uninstall" =
      ⟨.ok (), [.netGet (recipeUrl "foo"), .logFileCreate "foo_TS.log"], 0⟩ :=
  claim_C8_amended w8 plPosix 3 0 "foo" pkgFoo rfl

/-- C1 counterexample: a `zip_install` descriptor carrying a checksum the
content at its location does not hash to — installation nevertheless
succeeds and runs its install script, because the zip strategy never
downloads the artifact and never consults the checksum. -/
theorem claim_C1_counterexample :
    pkgZbad.checksum = some "00"
    ∧ wZbad.download pkgZbad.location = some [1]
    ∧ wZbad.hashHex [1] ≠ strToLower "00"
    ∧ (install_package wZbad plPosix 3 0 pkgZbad).out = .ok ()
    ∧ Event.scriptExec "run installer" ∈ (install_package wZbad plPosix 3 0 pkgZbad).trace :=
  ⟨rfl, rfl, by decide, rfl, by decide⟩

/-- C1 (amended): the checksum guarantee holds for `vendor_install`, the
only strategy that downloads: when the digest of the downloaded bytes
differs from the declared checksum under case-insensitive comparison (the
digest being lowercase hex), the install fails with `ChecksumMismatch`, no
script phase runs, and the partially-downloaded temporary file is deleted
before the failure propagates; `zip_install` performs no download and no
verification at all. -/
theorem claim_C1_amended (w : World) (pl : Platform) (ctr : Nat) (package : Package)
    (c : String) (bytes : List Nat)
    (hc : package.checksum = some c)
    (hdl : w.download package.location = some bytes)
    (hlow : strToLower (w.hashHex bytes) = w.hashHex bytes)
    (hne : strToLower (w.hashHex bytes) ≠ strToLower c) :
    vendor_install w pl ctr package =
      ⟨.error (.checksumMismatch package.name),
       [.tempFileCreate (w.tempName ctr), .netGet package.location,
        .tempFileDelete (w.tempName ctr)], ctr + 1⟩
    ∧ (∀ fuel : Nat, package.install_dependencies = [] →
        package.strategy = "vendor_install" →
        (install_package w pl (fuel + 2) ctr package).out =
          .error (.checksumMismatch package.name)) := by
  have hx : w.hashHex bytes ≠ strToLower c := by
    rw [← hlow]
    exact hne
  have hmain : vendor_install w pl ctr package =
      ⟨.error (.checksumMismatch package.name),
       [.tempFileCreate (w.tempName ctr), .netGet package.location,
        .tempFileDelete (w.tempName ctr)], ctr + 1⟩ := by
    unfold vendor_install download_and_verify_package
    simp [hdl, hc, hx]
  refine ⟨hmain, fun fuel hdeps hstrat => ?_⟩
  simp only [install_package]
  simp only [install_go, hdeps]
  simp [dispatch_strategy, hstrat, hmain]

/-- Witness for C1: an uppercase declared checksum mismatching the
lowercase digest of the downloaded bytes. -/
theorem claim_C1_witness :
    pkgVbad.checksum = some "AB" ∧
    strToLower (wZbad.hashHex [1]) ≠ strToLower "AB" ∧
    vendor_install wZbad plPosix 0 pkgVbad =
      ⟨.error (.checksumMismatch "vpkg"),
       [.tempFileCreate "/tmp/tmpf0", .netGet "https://x/v.bin",
        .tempFileDelete "/tmp/tmpf0"], 1⟩ :=
  ⟨rfl, by decide,
   (claim_C1_amended wZbad plPosix 0 pkgVbad "AB" [1] rfl rfl (by decide) (by decide)).1⟩

/-- C2 counterexample: a vendor install whose install script exits
non-zero — the downloaded artifact is neither removed nor deleted on this
exit path, contradicting removal on every exit path of the creating
scope. -/
theorem claim_C2_counterexample :
    (vendor_install wFail plPosix 0 pkgVfail).out = .error (.scriptExecutionFailed 1)
    ∧ Event.tempFileCreate "/tmp/tmpf0" ∈ (vendor_install wFail plPosix 0 pkgVfail).trace
    ∧ Event.artifactRemove "/tmp/tmpf0" ∉ (vendor_install wFail plPosix 0 pkgVfail).trace
    ∧ Event.tempFileDelete "/tmp/tmpf0" ∉ (vendor_install wFail plPosix 0 pkgVfail).trace :=
  ⟨rfl, by decide, by decide, by decide⟩

/-- C2 (amended): the zip strategy's extraction directory is removed on
every exit path of its scope; the vendor artifact is removed when the
script phases succeed (on a phase failure it is leaked, as the
counterexample shows); the executor's temporary script file is removed on
the success path. -/
theorem claim_C2_amended :
    (∀ (w : World) (pl : Platform) (ctr : Nat) (package : Package),
      Event.tempDirDelete (w.tempDirName ctr) ∈ (zip_install w pl ctr package).trace)
    ∧ (∀ (w : World) (pl : Platform) (ctr : Nat) (package : Package),
        (vendor_install w pl ctr package).out = .ok () →
        ∃ p, Event.artifactRemove p ∈ (vendor_install w pl ctr package).trace)
    ∧ (∀ (w : World) (pl : Platform) (ctr : Nat) (script text : String)
        (args : List (String × String)),
        pyFormat script args = some text → w.exitCode text = 0 →
        Event.tempFileDelete
            (w.scriptTempName ctr ++ (if pl.is_windows then "script.ps1" else "script.sh"))
          ∈ (run_script w pl ctr script args).trace) := by
  refine ⟨fun w pl ctr package => ?_, fun w pl ctr package h => ?_,
    fun w pl ctr script text args hf hz => ?_⟩
  · unfold zip_install
    rcases hw : w.archiveWalk package.location (w.tempDirName ctr) with _ | walk
    · simp [hw]
    · rcases hfb : find_binary_file walk with _ | pf
      · simp [hw, hfb]
      · simp [hw, hfb]
  · unfold vendor_install at h ⊢
    rcases hd : (download_and_verify_package w ctr package).out with e | pf
    · simp [hd] at h
    · rcases hp : (scriptPhases w pl (download_and_verify_package w ctr package).ctr package
          (formatArgsFor pl pf)).out with e | u
      · simp [hd, hp] at h
      · exact ⟨pf, by simp [hd, hp]⟩
  · unfold run_script
    simp [hf, hz]

/-- Witness for C2: both positive cleanup branches at concrete inputs. -/
theorem claim_C2_witness :
    Event.tempDirDelete "/tmp/dir0" ∈ (zip_install wOk plPosix 0 pkgZplain).trace ∧
    (vendor_install wOk plPosix 0 pkgD).out = .ok () ∧
    (∃ p, Event.artifactRemove p ∈ (vendor_install wOk plPosix 0 pkgD).trace) :=
  ⟨claim_C2_amended.1 wOk plPosix 0 pkgZplain, rfl,
   claim_C2_amended.2.1 wOk plPosix 0 pkgD rfl⟩

/-- C4: code bug — the archive test of `download_and_verify_package`
inspects the temporary file's name (`temp_file.name`) instead of the
artifact's name: for a descriptor whose location ends in ".zip", the
suffixless random temp name fails the test, so no extraction happens and
the raw downloaded file path is returned unchanged. -/
theorem claim_C4_code_behavior :
    strEndsWith pkgFooZip.location ".zip" = true
    ∧ download_and_verify_package w4 0 pkgFooZip =
        ⟨.ok "/tmp/tmpw8yc2k",
         [.tempFileCreate "/tmp/tmpw8yc2k", .netGet "https://example/foo.zip"], 1⟩
    ∧ strEndsWith (w4.tempName 0) ".zip" = false :=
  ⟨by decide, rfl, by decide⟩

/-- C6 counterexample: a script that exits non-zero — `run_script` fails
with `ScriptExecutionFailed`, but the temporary script file is NOT deleted
on this path (no deletion event in the trace). -/
theorem claim_C6_counterexample :
    run_script wFail plPosix 0 "oops" [] =
      ⟨.error (.scriptExecutionFailed 1),
       [.tempFileCreate "/tmp/pkg_manager_0script.sh", .scriptExec "oops"], 1⟩
    ∧ Event.tempFileDelete "/tmp/pkg_manager_0script.sh" ∉
        (run_script wFail plPosix 0 "oops" []).trace :=
  ⟨rfl, by decide⟩

/-- C6 (amended): for every script body whose interpolation succeeds, the
executor writes the interpolated text to a new temporary script file with
the platform extension and runs it synchronously, failing with
`ScriptExecutionFailed` carrying the exit code when the child exits
non-zero; the temporary file is deleted afterward on the success path, but
on the failure path it is left behind. -/
theorem claim_C6_amended (w : World) (pl : Platform) (ctr : Nat) (script : String)
    (args : List (String × String)) (text : String)
    (hf : pyFormat script args = some text) :
    (w.exitCode text = 0 →
      run_script w pl ctr script args =
        ⟨.ok (),
         [.tempFileCreate
            (w.scriptTempName ctr ++ (if pl.is_windows then "script.ps1" else "script.sh")),
          .scriptExec text,
          .tempFileDelete
            (w.scriptTempName ctr ++ (if pl.is_windows then "script.ps1" else "script.sh"))],
         ctr + 1⟩)
    ∧ (∀ k : Nat, w.exitCode text = k + 1 →
        run_script w pl ctr script args =
          ⟨.error (.scriptExecutionFailed (k + 1)),
           [.tempFileCreate
              (w.scriptTempName ctr ++ (if pl.is_windows then "script.ps1" else "script.sh")),
            .scriptExec text],
           ctr + 1⟩) := by
  constructor
  · intro hz
    unfold run_script
    simp [hf, hz]
  · intro k hk
    unfold run_script
    simp [hf, hk]

/-- Witness for C6 at a concrete succeeding script. -/
theorem claim_C6_witness :
    pyFormat "echo hi" [] = some "echo hi" ∧
    run_script wOk plPosix 0 "echo hi" [] =
      ⟨.ok (), [.tempFileCreate "/tmp/pkg_manager_0script.sh", .scriptExec "echo hi",
        .tempFileDelete "/tmp/pkg_manager_0script.sh"], 1⟩ :=
  ⟨rfl, (claim_C6_amended wOk plPosix 0 "echo hi" [] "echo hi" rfl).1 rfl⟩

/-- C9: under either strategy every non-empty script phase is interpolated
twice before execution: the strategy formats the body with the Format
Context at the call site, and `run_script` formats the result again with
the same variables, so the executed text is the double format; after the
first pass doubled braces have collapsed to single braces, and a
brace-delimited field produced by the first pass is substituted by the
second pass when its name is bound (and is a template error when not). -/
theorem claim_C9 :
    (∀ args : List (String × String), pyFormat "\x7b\x7bx\x7d\x7d" args = some "\x7bx\x7d")
    ∧ (∀ args : List (String × String), pyFormat "\x7bx\x7d" args = args.lookup "x")
    ∧ (∀ (w : World) (pl : Platform) (ctr : Nat) (package : Package) (bytes : List Nat)
        (s s1 s2 : String),
        package.checksum = none →
        w.download package.location = some bytes →
        strEndsWith (w.tempName ctr) ".zip" = false →
        strEndsWith (w.tempName ctr) ".tar.gz" = false →
        package.pre_install = some s →
        pyFormat s (formatArgsFor pl (w.tempName ctr)) = some s1 →
        pyFormat s1 (formatArgsFor pl (w.tempName ctr)) = some s2 →
        Event.scriptExec s2 ∈ (vendor_install w pl ctr package).trace)
    ∧ (∀ (w : World) (pl : Platform) (ctr : Nat) (package : Package)
        (walk : List (String × List String × List String)) (pf s s1 s2 : String),
        w.archiveWalk package.location (w.tempDirName ctr) = some walk →
        find_binary_file walk = some pf →
        package.pre_install = some s →
        pyFormat s (formatArgsFor pl pf) = some s1 →
        pyFormat s1 (formatArgsFor pl pf) = some s2 →
        Event.scriptExec s2 ∈ (zip_install w pl ctr package).trace) := by
  refine ⟨fun args => rfl, fun args => ?_, ?_, ?_⟩
  · have hstep : pyFormat "\x7bx\x7d" args =
        Option.map String.mk
          (match args.lookup "x" with
           | some v => Option.map (fun t => v.data ++ t) (some [])
           | none => none) := rfl
    rw [hstep]
    cases h : args.lookup "x" with
    | none => rfl
    | some v =>
      obtain ⟨vd⟩ := v
      show some (String.mk (vd ++ [])) = some (String.mk vd)
      rw [List.append_nil]
  · intro w pl ctr package bytes s s1 s2 hc hdl hz1 hz2 hpre h1 h2
    have hdv : download_and_verify_package w ctr package =
        ⟨.ok (w.tempName ctr),
         [.tempFileCreate (w.tempName ctr), .netGet package.location], ctr + 1⟩ := by
      unfold download_and_verify_package extractStep
      simp [hdl, hc, hz1, hz2]
    unfold vendor_install
    rw [hdv]
    dsimp only
    have hm := scriptPhases_exec_mem w pl (ctr + 1) package
      (formatArgsFor pl (w.tempName ctr)) s s1 s2 hpre h1 h2
    rcases hp : (scriptPhases w pl (ctr + 1) package
        (formatArgsFor pl (w.tempName ctr))).out with e | u
    · simp only [hp]
      exact List.mem_append.mpr (Or.inr hm)
    · simp only [hp]
      exact List.mem_append.mpr (Or.inl (List.mem_append.mpr (Or.inr hm)))
  · intro w pl ctr package walk pf s s1 s2 hw hfb hpre h1 h2
    unfold zip_install
    simp only [hw, hfb]
    have hm := scriptPhases_exec_mem w pl (ctr + 1) package (formatArgsFor pl pf) s s1 s2
      hpre h1 h2
    simp [List.mem_append, hm]

/-- Witness for C9: a pre-install script with escaped braces is collapsed
by the first pass and substituted by the second, and the doubly-formatted
text is what executes. -/
theorem claim_C9_witness :
    pkgPre.pre_install = some "echo \x7b\x7buser_path\x7d\x7d" ∧
    Event.scriptExec "echo /home/u" ∈ (vendor_install wOk plPosix 0 pkgPre).trace :=
  ⟨rfl,
   claim_C9.2.2.1 wOk plPosix 0 pkgPre [0] "echo \x7b\x7buser_path\x7d\x7d"
     "echo \x7buser_path\x7d" "echo /home/u" rfl rfl (by decide) (by decide) rfl rfl rfl⟩
